import Mathlib

/-!
Shallow embedding of the saga orchestrator of the ecommerce-microservices
repository (directory src/orchestrator/app): the data model (models.py),
the HTTP gateway (services/http_client.py), the compensation coordinator
(services/compensation.py), the saga orchestrator (services/saga_service.py),
the in-memory store (storage/transaction_store.py) and the transaction
route (routes/saga_routes.py).

Remote I/O is embedded by an environment (`SagaEnv`, `WireOutcome`) that
fixes, for each outbound HTTP call the orchestrator makes, what the wire
returns: an HTTP response with a status code and body, a timeout, or a
transport failure.  Python exceptions are embedded as `Except PyError`.
Timestamps (`datetime.now()`) are supplied as explicit parameters.
-/

namespace ECommerceSaga

/-! ## Data model (src/orchestrator/app/models.py) -/

/-- models.py `TransactionStatus`: PENDING is initial, the rest terminal. -/
inductive TransactionStatus where
  | PENDING
  | COMPLETED
  | COMPENSATED
  | FAILED
deriving DecidableEq, Repr

/-- models.py `TransactionRequest`: user id plus an amount (validated
elsewhere to be strictly positive).  The Python float amount is embedded
as a rational. -/
structure TransactionRequest where
  user_id : String
  amount : Rat
deriving DecidableEq, Repr

/-- models.py `TransactionState`: the mutable record of one saga run. -/
structure TransactionState where
  transaction_id : String
  status : TransactionStatus
  user_id : String
  product_id : Option String := none
  payment_id : Option String := none
  inventory_updated : Bool := false
  purchase_registered : Bool := false
  amount : Rat
  created_at : Nat
  completed_at : Option Nat := none
  error_message : Option String := none
deriving DecidableEq, Repr

/-! ## Decoded JSON bodies and Python idioms -/

/-- A decoded JSON scalar as the orchestrator consumes it: a string, an
integer, or null. -/
inductive JValue where
  | s (v : String)
  | n (v : Int)
  | null
deriving DecidableEq, Repr

/-- Python truthiness of a decoded JSON scalar. -/
def JValue.truthy : JValue → Bool
  | .s v => v ≠ ""
  | .n v => v ≠ 0
  | .null => false

/-- Python `str()` of a decoded JSON scalar. -/
def JValue.pyStr : JValue → String
  | .s v => v
  | .n v => toString v
  | .null => "None"

/-- A decoded JSON object body: association list of keys to scalars. -/
abbrev Jn := List (String × JValue)

/-- Python `body.get(key)`: first binding of the key, if any. -/
def jget (body : Jn) (key : String) : Option JValue :=
  (body.find? (fun p => p.1 = key)).map (fun p => p.2)

/-- The saga-step idiom `str(body.get(key)) if body.get(key) else None`. -/
def pyStrOpt (body : Jn) (key : String) : Option String :=
  match jget body key with
  | some v => if v.truthy then some v.pyStr else none
  | none => none

/-- Python truthiness of an `Optional[str]` (None and "" are falsy). -/
def optTruthy : Option String → Bool
  | none => false
  | some v => v ≠ ""

/-- The two exception shapes the orchestrator raises: FastAPI
`HTTPException(status_code, detail)` and plain `ValueError(msg)`. -/
inductive PyError where
  | httpException (statusCode : Nat) (detail : String)
  | valueError (msg : String)
deriving DecidableEq, Repr

/-- Python `str(e)`: Starlette renders an HTTPException as
`"{status_code}: {detail}"`; a ValueError renders as its message. -/
def pyErrStr : PyError → String
  | .httpException c d => toString c ++ ": " ++ d
  | .valueError m => m

/-! ## RemoteServiceGateway (src/orchestrator/app/services/http_client.py) -/

/-- What the wire returns for one outbound HTTP call: a response (final
after redirect following) with status code, raw text, the optional
`error`/`message` field of its JSON body, and the decoded JSON object
body when it decodes; or a timeout; or a transport/connection failure. -/
inductive WireOutcome where
  | response (statusCode : Nat) (text : String) (errJson : Option String) (body : Option Jn)
  | timeout
  | connectError (msg : String)
deriving DecidableEq, Repr

/-- config.py `settings.SERVICES`: the configured service names. -/
def knownServices : List String := ["catalog", "payments", "inventory", "purchases"]

/-- The HTTP methods dispatched by `ServiceClient.call_service`. -/
def httpMethods : List String := ["GET", "POST", "PUT", "DELETE"]

/-- http_client.py `ServiceClient.call_service`.  An unknown service name
raises ValueError before the try block.  Inside the try block: an
unsupported method raises ValueError, which the final generic handler
converts to a 503 HTTPException; a timeout becomes a 504; a transport
failure becomes a 503; a 409 response becomes a 409 HTTPException whose
detail prefers the error/message field of the body over the raw text;
`raise_for_status` (httpx semantics: raises HTTPStatusError for every
response that is not a 2xx success) turns any other non-2xx response into
an HTTPException carrying the original status and body text; a 2xx JSON
body is decoded and returned (a decode failure falls into the generic 503
handler). -/
def call_service (service_name endpoint method : String) (wire : WireOutcome) :
    Except PyError Jn :=
  if service_name ∉ knownServices then
    .error (.valueError ("Unknown service: " ++ service_name))
  else if method ∉ httpMethods then
    .error (.httpException 503 ("Service " ++ service_name ++ " unavailable"))
  else
    match wire with
    | .timeout =>
        .error (.httpException 504 ("Timeout while communicating with " ++ service_name))
    | .connectError _ =>
        .error (.httpException 503 ("Service " ++ service_name ++ " unavailable"))
    | .response code text errJson body =>
        if code = 409 then
          .error (.httpException 409 (service_name ++ " conflict: " ++ errJson.getD text))
        else if ¬ (200 ≤ code ∧ code < 300) then
          .error (.httpException code ("Error in " ++ service_name ++ ": " ++ text))
        else
          match body with
          | some j => .ok j
          | none => .error (.httpException 503 ("Service " ++ service_name ++ " unavailable"))

/-! ## TransactionStore (src/orchestrator/app/storage/transaction_store.py)

A Python dict keyed by transaction id, embedded as an insertion-ordered
association list: `save` replaces in place when the key exists, else
appends. -/

abbrev Store := List (String × TransactionState)

/-- `TransactionStore.save`: dict upsert preserving insertion order. -/
def storeSave (s : Store) (t : TransactionState) : Store :=
  match s with
  | [] => [(t.transaction_id, t)]
  | p :: rest =>
      if p.1 = t.transaction_id then (p.1, t) :: rest
      else p :: storeSave rest t

/-- `TransactionStore.get`. -/
def storeGet (s : Store) (tid : String) : Option TransactionState :=
  (s.find? (fun p => p.1 = tid)).map (fun p => p.2)

/-- `TransactionStore.get_all`: values in insertion order. -/
def storeAll (s : Store) : List TransactionState := s.map (fun p => p.2)

/-- `TransactionStore.count`. -/
def storeCount (s : Store) : Nat := s.length

/-! ## Environment of one saga run

One `SagaEnv` fixes what the wire returns for each of the (at most) six
outbound calls a single saga run can make: the four forward steps and the
two compensations. -/

structure SagaEnv where
  catalogWire : WireOutcome
  paymentsWire : WireOutcome
  inventoryWire : WireOutcome
  purchasesWire : WireOutcome
  refundWire : WireOutcome
  cancelWire : WireOutcome
deriving DecidableEq, Repr

/-! ## CompensationCoordinator (src/orchestrator/app/services/compensation.py) -/

/-- compensation.py `CompensationService.compensate_payment`: no-op success
when `payment_id` is falsy; otherwise calls the payments refund endpoint,
returning True on success and False on any exception (caught internally). -/
def compensate_payment (refundWire : WireOutcome) (t : TransactionState) :
    Except PyError Bool :=
  if ¬ optTruthy t.payment_id then .ok true
  else
    match call_service "payments"
        ("/payments/" ++ t.payment_id.getD "" ++ "/refund/") "POST" refundWire with
    | .ok _ => .ok true
    | .error _ => .ok false

/-- compensation.py `CompensationService.compensate_purchase`: no-op success
when `purchase_registered` is false; otherwise calls the purchases cancel
endpoint, returning True on success and False on any exception. -/
def compensate_purchase (cancelWire : WireOutcome) (t : TransactionState) :
    Except PyError Bool :=
  if ¬ t.purchase_registered then .ok true
  else
    match call_service "purchases"
        ("/purchases/" ++ t.transaction_id ++ "/cancel/") "DELETE" cancelWire with
    | .ok _ => .ok true
    | .error _ => .ok false

/-- Outcome of one compensation as observed by the coordinator loop: the
compensation function returned True, returned False, or raised (the loop
catches the exception and records it in the log). -/
inductive CompOutcome where
  | succeeded
  | failed
  | raised (e : PyError)
deriving DecidableEq, Repr

/-- One executed compensation: its name as logged, and its outcome. -/
structure CompExec where
  name : String
  outcome : CompOutcome
deriving DecidableEq, Repr

/-- The coordinator loop body: `try: result = await compensation_fn(...)`
with the success/failure of `result` logged and any exception caught. -/
def runCompensationFn (r : Except PyError Bool) : CompOutcome :=
  match r with
  | .ok true => .succeeded
  | .ok false => .failed
  | .error e => .raised e

/-- compensation.py `CompensationService.execute_all_compensations`: builds
the applicable compensations from the flags of the record in reverse forward
order (purchase cancel when `purchase_registered`, then payment refund when
`payment_id` is truthy; inventory and catalog have no compensation), then
executes them sequentially, each wrapped so that nothing propagates.  The
result is the chronological trace of executed compensations. -/
def execute_all_compensations (refundWire cancelWire : WireOutcome)
    (t : TransactionState) : List CompExec :=
  ((if t.purchase_registered then
      [("purchase", compensate_purchase cancelWire t)] else []) ++
   (if optTruthy t.payment_id then
      [("payment", compensate_payment refundWire t)] else [])).map
    (fun p => { name := p.1, outcome := runCompensationFn p.2 })

/-! ## SagaOrchestrator (src/orchestrator/app/services/saga_service.py) -/

/-- saga_service.py `SagaService._create_transaction`. -/
def create_transaction (req : TransactionRequest) (tid : String) (now : Nat) :
    TransactionState :=
  { transaction_id := tid, status := .PENDING, user_id := req.user_id,
    amount := req.amount, created_at := now }

/-- saga_service.py `SagaService._step_get_product`: GET /products/random on
the catalog service, storing the (stringified, truthy) `product_id`. -/
def step_get_product (env : SagaEnv) (t : TransactionState) :
    Except PyError TransactionState :=
  match call_service "catalog" "/products/random" "GET" env.catalogWire with
  | .error e => .error e
  | .ok body => .ok { t with product_id := pyStrOpt body "product_id" }

/-- saga_service.py `SagaService._step_process_payment`: POST /payments,
storing the (stringified, truthy) `payment_id`. -/
def step_process_payment (env : SagaEnv) (t : TransactionState) :
    Except PyError TransactionState :=
  match call_service "payments" "/payments" "POST" env.paymentsWire with
  | .error e => .error e
  | .ok body => .ok { t with payment_id := pyStrOpt body "payment_id" }

/-- saga_service.py `SagaService._step_update_inventory`: POST
/inventory/decrease, then sets `inventory_updated`. -/
def step_update_inventory (env : SagaEnv) (t : TransactionState) :
    Except PyError TransactionState :=
  match call_service "inventory" "/inventory/decrease" "POST" env.inventoryWire with
  | .error e => .error e
  | .ok _ => .ok { t with inventory_updated := true }

/-- saga_service.py `SagaService._step_register_purchase`: POST /purchases,
then sets `purchase_registered`. -/
def step_register_purchase (env : SagaEnv) (t : TransactionState) :
    Except PyError TransactionState :=
  match call_service "purchases" "/purchases" "POST" env.purchasesWire with
  | .error e => .error e
  | .ok _ => .ok { t with purchase_registered := true }

/-- The (service, endpoint, method) of the four forward calls, in forward
order. -/
def forwardCallList : List (String × String × String) :=
  [("catalog", "/products/random", "GET"),
   ("payments", "/payments", "POST"),
   ("inventory", "/inventory/decrease", "POST"),
   ("purchases", "/purchases", "POST")]

instance {ε α : Type} [DecidableEq ε] [DecidableEq α] : DecidableEq (Except ε α) :=
  fun x y =>
    match x, y with
    | .ok a, .ok b =>
        if h : a = b then .isTrue (by simp [h]) else .isFalse (by simp [h])
    | .ok _, .error _ => .isFalse (by simp)
    | .error _, .ok _ => .isFalse (by simp)
    | .error a, .error b =>
        if h : a = b then .isTrue (by simp [h]) else .isFalse (by simp [h])

/-- Everything observable about one `execute_saga` run: the returned value
or re-raised exception, the chronological snapshots passed to
`transaction_store.save`, the forward calls that were dispatched, the
arguments of the invocations of `execute_all_compensations`, the trace the
coordinator produced, and the final store. -/
structure SagaOutput where
  result : Except PyError TransactionState
  saves : List TransactionState
  forwardCalls : List (String × String × String)
  compCalls : List TransactionState
  compTrace : List CompExec
  store : Store
deriving DecidableEq, Repr

/-- The except-branch of saga_service.py `SagaService.execute_saga`: set
`error_message` to `str(e)`, save, run `execute_all_compensations` on the
record as it stands, set status COMPENSATED and `completed_at`, save, and
re-raise. -/
def sagaFail (env : SagaEnv) (e : PyError) (t : TransactionState)
    (store : Store) (saves : List TransactionState)
    (calls : List (String × String × String)) (tEnd : Nat) : SagaOutput :=
  let tErr := { t with error_message := some (pyErrStr e) }
  let store1 := storeSave store tErr
  let trace := execute_all_compensations env.refundWire env.cancelWire tErr
  let tComp := { tErr with status := .COMPENSATED, completed_at := some tEnd }
  let store2 := storeSave store1 tComp
  { result := .error e,
    saves := saves ++ [tErr, tComp],
    forwardCalls := calls,
    compCalls := [tErr],
    compTrace := trace,
    store := store2 }

/-- saga_service.py `SagaService.execute_saga`: create a PENDING record and
save it, run the four forward steps in order saving after each, then mark
COMPLETED, set `completed_at`, save and return; on any step exception run
the except-branch (`sagaFail`).  `tid` stands for the generated uuid4, `t0`
for the creation time and `tEnd` for the terminal `datetime.now()`. -/
def execute_saga (env : SagaEnv) (req : TransactionRequest) (tid : String)
    (t0 tEnd : Nat) (store0 : Store) : SagaOutput :=
  let t := create_transaction req tid t0
  let store1 := storeSave store0 t
  match step_get_product env t with
  | .error e => sagaFail env e t store1 [t] (forwardCallList.take 1) tEnd
  | .ok ta =>
    let store2 := storeSave store1 ta
    match step_process_payment env ta with
    | .error e => sagaFail env e ta store2 [t, ta] (forwardCallList.take 2) tEnd
    | .ok tb =>
      let store3 := storeSave store2 tb
      match step_update_inventory env tb with
      | .error e => sagaFail env e tb store3 [t, ta, tb] (forwardCallList.take 3) tEnd
      | .ok tc =>
        let store4 := storeSave store3 tc
        match step_register_purchase env tc with
        | .error e => sagaFail env e tc store4 [t, ta, tb, tc] forwardCallList tEnd
        | .ok td =>
          let store5 := storeSave store4 td
          let tDone := { td with status := TransactionStatus.COMPLETED,
                                 completed_at := some tEnd }
          let store6 := storeSave store5 tDone
          { result := .ok tDone,
            saves := [t, ta, tb, tc, td, tDone],
            forwardCalls := forwardCallList,
            compCalls := [],
            compTrace := [],
            store := store6 }

/-- The first exception among the four forward calls of one run, in forward
order, if any: exactly the exception `execute_saga` meets first. -/
def firstError (env : SagaEnv) : Option PyError :=
  match call_service "catalog" "/products/random" "GET" env.catalogWire with
  | .error e => some e
  | .ok _ =>
    match call_service "payments" "/payments" "POST" env.paymentsWire with
    | .error e => some e
    | .ok _ =>
      match call_service "inventory" "/inventory/decrease" "POST" env.inventoryWire with
      | .error e => some e
      | .ok _ =>
        match call_service "purchases" "/purchases" "POST" env.purchasesWire with
        | .error e => some e
        | .ok _ => none

/-- Index (0-based, forward order) of the first failing forward call. -/
def failStepIndex (env : SagaEnv) : Nat :=
  match call_service "catalog" "/products/random" "GET" env.catalogWire with
  | .error _ => 0
  | .ok _ =>
    match call_service "payments" "/payments" "POST" env.paymentsWire with
    | .error _ => 1
    | .ok _ =>
      match call_service "inventory" "/inventory/decrease" "POST" env.inventoryWire with
      | .error _ => 2
      | .ok _ =>
        match call_service "purchases" "/purchases" "POST" env.purchasesWire with
        | .error _ => 3
        | .ok _ => 4

/-! ## Saga API surface (src/orchestrator/app/routes/saga_routes.py) -/

/-- models.py `TransactionResponse`, with the `details` dict flattened into
optional fields: the success branch fills `details_amount` and the failure
branch fills `details_error` (whose inner option is the possibly-null
`error_message` of the last stored record). -/
structure TransactionResponse where
  transaction_id : String
  status : TransactionStatus
  message : String
  details_user_id : String
  details_product_id : Option String
  details_payment_id : Option String
  details_amount : Option Rat
  details_error : Option (Option String)
  timestamp : Nat
deriving DecidableEq, Repr

/-- saga_routes.py `initiate_transaction`: run the saga; on success answer
200 with the completed record; on any exception answer 409, rebuilding the
response from the last record of the store (or placeholders if the store is
empty).  `now` stands for the `datetime.now()` calls of the route. -/
def initiate_transaction (env : SagaEnv) (req : TransactionRequest) (tid : String)
    (t0 tEnd now : Nat) (store0 : Store) : Nat × TransactionResponse × SagaOutput :=
  let out := execute_saga env req tid t0 tEnd store0
  match out.result with
  | .ok t =>
      (200,
       { transaction_id := t.transaction_id,
         status := t.status,
         message := "Transaction completed successfully",
         details_user_id := t.user_id,
         details_product_id := t.product_id,
         details_payment_id := t.payment_id,
         details_amount := some t.amount,
         details_error := none,
         timestamp := t.completed_at.getD now },
       out)
  | .error e =>
      (409,
       { transaction_id :=
           match (storeAll out.store).getLast? with
           | some lt => lt.transaction_id
           | none => "unknown",
         status := .COMPENSATED,
         message := "Transaction failed and was reverted",
         details_user_id := req.user_id,
         details_product_id :=
           match (storeAll out.store).getLast? with
           | some lt => lt.product_id
           | none => none,
         details_payment_id :=
           match (storeAll out.store).getLast? with
           | some lt => lt.payment_id
           | none => none,
         details_amount := none,
         details_error :=
           match (storeAll out.store).getLast? with
           | some lt => some lt.error_message
           | none => some (some (pyErrStr e)),
         timestamp := now },
       out)

/-- Modelled from the spec: the framework-level request validation that
FastAPI performs from models.py `TransactionRequest` (`amount` declared
with `Field(gt=0)`) before the route handler runs; the spec states that a
non-positive amount is rejected with 422 before any side effect occurs. -/
def validateTransactionRequest (user_id : String) (amount : Rat) :
    Except Nat TransactionRequest :=
  if amount > 0 then .ok { user_id := user_id, amount := amount }
  else .error 422

/-- Result of POST /saga/transaction as seen by the client: either the
framework validation error, or the handled response together with the saga
run it came from. -/
inductive EndpointResult where
  | validationError (httpStatus : Nat)
  | handled (httpStatus : Nat) (resp : TransactionResponse) (out : SagaOutput)
deriving DecidableEq, Repr

/-- POST /saga/transaction including request validation: malformed input is
rejected before the handler runs, leaving the store untouched and making no
remote call; otherwise `initiate_transaction` runs. -/
def saga_endpoint (env : SagaEnv) (user_id : String) (amount : Rat) (tid : String)
    (t0 tEnd now : Nat) (store0 : Store) : EndpointResult × Store :=
  match validateTransactionRequest user_id amount with
  | .error code => (.validationError code, store0)
  | .ok req =>
      let r := initiate_transaction env req tid t0 tEnd now store0
      (.handled r.1 r.2.1 r.2.2, r.2.2.store)

/-! ## Store lemmas -/

lemma storeGet_storeSave_self (s : Store) (t : TransactionState) :
    storeGet (storeSave s t) t.transaction_id = some t := by
  induction s with
  | nil => simp [storeSave, storeGet, List.find?]
  | cons p rest ih =>
      by_cases h : p.1 = t.transaction_id
      · simp [storeSave, storeGet, List.find?, h]
      · simpa [storeSave, storeGet, List.find?, h] using ih

lemma storeSave_fresh (s : Store) (t : TransactionState) (tid : String)
    (h : ∀ p ∈ s, p.1 ≠ tid) (ht : t.transaction_id = tid) :
    storeSave s t = s ++ [(tid, t)] := by
  induction s with
  | nil => simp [storeSave, ht]
  | cons p rest ih =>
      have hp : p.1 ≠ t.transaction_id := by
        rw [ht]; exact h p (by simp)
      simp only [storeSave, if_neg hp, List.cons_append, List.cons.injEq, true_and]
      exact ih (fun q hq => h q (by simp [hq]))

lemma storeSave_append_last (s : Store) (x t : TransactionState) (tid : String)
    (h : ∀ p ∈ s, p.1 ≠ tid) (ht : t.transaction_id = tid) :
    storeSave (s ++ [(tid, x)]) t = s ++ [(tid, t)] := by
  induction s with
  | nil => simp [storeSave, ht]
  | cons p rest ih =>
      have hp : p.1 ≠ t.transaction_id := by
        rw [ht]; exact h p (by simp)
      simp only [List.cons_append, storeSave, if_neg hp, List.cons.injEq, true_and]
      exact ih (fun q hq => h q (by simp [hq]))

lemma mem_storeSave (s : Store) (t : TransactionState)
    (q : String × TransactionState) (hq : q ∈ storeSave s t) :
    q ∈ s ∨ q.2 = t := by
  induction s with
  | nil =>
      simp only [storeSave, List.mem_singleton] at hq
      right; rw [hq]
  | cons p rest ih =>
      by_cases h : p.1 = t.transaction_id
      · simp only [storeSave, if_pos h, List.mem_cons] at hq
        rcases hq with hq | hq
        · right; rw [hq]
        · left; simp [hq]
      · simp only [storeSave, if_neg h, List.mem_cons] at hq
        rcases hq with hq | hq
        · left; simp [hq]
        · rcases ih hq with h2 | h2
          · left; simp [h2]
          · right; exact h2

lemma foldl_storeSave_last (ts : List TransactionState) (s : Store) (tid : String)
    (x : TransactionState) (hfresh : ∀ p ∈ s, p.1 ≠ tid)
    (hts : ∀ u ∈ ts, u.transaction_id = tid) (hx : x.transaction_id = tid) :
    ts.foldl storeSave (s ++ [(tid, x)]) = s ++ [(tid, ts.getLastD x)] := by
  induction ts generalizing x with
  | nil => simp
  | cons u ts ih =>
      have hu : u.transaction_id = tid := hts u (by simp)
      rw [List.foldl_cons, storeSave_append_last s x u tid hfresh hu,
        ih u (fun v hv => hts v (by simp [hv])) hu, List.getLastD_cons]

lemma getLast?_cons_getD {α : Type} (a : α) (l : List α) :
    (a :: l).getLast? = some ((l.getLast?).getD a) := by
  induction l generalizing a with
  | nil => rfl
  | cons b l ih =>
      rw [List.getLast?_cons_cons, ih b]
      simp

lemma mem_foldl_storeSave (ts : List TransactionState) (s : Store)
    (q : String × TransactionState) (hq : q ∈ ts.foldl storeSave s) :
    q ∈ s ∨ q.2 ∈ ts := by
  induction ts generalizing s with
  | nil => exact Or.inl hq
  | cons u ts ih =>
      rw [List.foldl_cons] at hq
      rcases ih (storeSave s u) hq with h1 | h1
      · rcases mem_storeSave s u q h1 with h2 | h2
        · exact Or.inl h2
        · exact Or.inr (by simp [h2])
      · exact Or.inr (by simp [h1])

lemma storeGet_append_last (s : Store) (t : TransactionState) (tid : String)
    (h : ∀ p ∈ s, p.1 ≠ tid) :
    storeGet (s ++ [(tid, t)]) tid = some t := by
  induction s with
  | nil => simp [storeGet, List.find?]
  | cons p rest ih =>
      have hp : p.1 ≠ tid := h p (by simp)
      simpa [storeGet, List.find?, hp] using ih (fun q hq => h q (by simp [hq]))

/-! ## Shape of one saga run -/

/-- When the first forward-call exception is `e`, the run re-raises `e`,
invokes the coordinator exactly once with the record as it stands at
failure (PENDING, no `completed_at`, `error_message = str(e)`), then saves
the COMPENSATED terminal record last; the persisted statuses are a block of
PENDING snapshots followed by the single terminal one, and the forward
calls dispatched stop at the failing step. -/
lemma saga_fail_view (env : SagaEnv) (req : TransactionRequest) (tid : String)
    (t0 tEnd : Nat) (store0 : Store) (e : PyError)
    (h : firstError env = some e) :
    ∃ tf : TransactionState,
      (execute_saga env req tid t0 tEnd store0).result = .error e ∧
      (execute_saga env req tid t0 tEnd store0).compCalls = [tf] ∧
      tf.transaction_id = tid ∧
      tf.status = TransactionStatus.PENDING ∧
      tf.completed_at = none ∧
      tf.error_message = some (pyErrStr e) ∧
      (execute_saga env req tid t0 tEnd store0).compTrace =
        execute_all_compensations env.refundWire env.cancelWire tf ∧
      (execute_saga env req tid t0 tEnd store0).saves.getLast? =
        some { tf with status := TransactionStatus.COMPENSATED,
                       completed_at := some tEnd } ∧
      storeGet (execute_saga env req tid t0 tEnd store0).store tid =
        some { tf with status := TransactionStatus.COMPENSATED,
                       completed_at := some tEnd } ∧
      (execute_saga env req tid t0 tEnd store0).saves.map (fun x => x.status) =
        List.replicate (failStepIndex env + 2) TransactionStatus.PENDING ++
          [TransactionStatus.COMPENSATED] ∧
      (execute_saga env req tid t0 tEnd store0).saves.map (fun x => x.completed_at) =
        List.replicate (failStepIndex env + 2) none ++ [some tEnd] ∧
      (execute_saga env req tid t0 tEnd store0).forwardCalls =
        forwardCallList.take (failStepIndex env + 1) := by
  cases h1 : call_service "catalog" "/products/random" "GET" env.catalogWire with
  | error e1 =>
      have he : e1 = e := by simpa [firstError, h1] using h
      subst he
      refine ⟨{ create_transaction req tid t0 with
                error_message := some (pyErrStr e1) },
        ?_, ?_, ?_, ?_, ?_, ?_, ?_, ?_, ?_, ?_, ?_, ?_⟩ <;>
        simp [execute_saga, step_get_product, h1, sagaFail, failStepIndex,
          create_transaction, forwardCallList, List.replicate]
      · exact storeGet_storeSave_self _ _
  | ok b1 =>
  cases h2 : call_service "payments" "/payments" "POST" env.paymentsWire with
  | error e2 =>
      have he : e2 = e := by simpa [firstError, h1, h2] using h
      subst he
      refine ⟨{ create_transaction req tid t0 with
                product_id := pyStrOpt b1 "product_id",
                error_message := some (pyErrStr e2) },
        ?_, ?_, ?_, ?_, ?_, ?_, ?_, ?_, ?_, ?_, ?_, ?_⟩ <;>
        simp [execute_saga, step_get_product, step_process_payment, h1, h2,
          sagaFail, failStepIndex, create_transaction, forwardCallList,
          List.replicate]
      · exact storeGet_storeSave_self _ _
  | ok b2 =>
  cases h3 : call_service "inventory" "/inventory/decrease" "POST" env.inventoryWire with
  | error e3 =>
      have he : e3 = e := by simpa [firstError, h1, h2, h3] using h
      subst he
      refine ⟨{ create_transaction req tid t0 with
                product_id := pyStrOpt b1 "product_id",
                payment_id := pyStrOpt b2 "payment_id",
                error_message := some (pyErrStr e3) },
        ?_, ?_, ?_, ?_, ?_, ?_, ?_, ?_, ?_, ?_, ?_, ?_⟩ <;>
        simp [execute_saga, step_get_product, step_process_payment,
          step_update_inventory, h1, h2, h3, sagaFail, failStepIndex,
          create_transaction, forwardCallList, List.replicate]
      · exact storeGet_storeSave_self _ _
  | ok b3 =>
  cases h4 : call_service "purchases" "/purchases" "POST" env.purchasesWire with
  | error e4 =>
      have he : e4 = e := by simpa [firstError, h1, h2, h3, h4] using h
      subst he
      refine ⟨{ create_transaction req tid t0 with
                product_id := pyStrOpt b1 "product_id",
                payment_id := pyStrOpt b2 "payment_id",
                inventory_updated := true,
                error_message := some (pyErrStr e4) },
        ?_, ?_, ?_, ?_, ?_, ?_, ?_, ?_, ?_, ?_, ?_, ?_⟩ <;>
        simp [execute_saga, step_get_product, step_process_payment,
          step_update_inventory, step_register_purchase, h1, h2, h3, h4,
          sagaFail, failStepIndex, create_transaction, forwardCallList,
          List.replicate]
      · exact storeGet_storeSave_self _ _
  | ok b4 =>
      simp [firstError, h1, h2, h3, h4] at h

/-- When no forward call raises, the run returns the COMPLETED record with
`completed_at` set, saves six snapshots (the initial one, one per step, and
the terminal one), invokes no compensation, dispatches all four forward
calls, and persists the terminal record under its id. -/
lemma saga_ok_view (env : SagaEnv) (req : TransactionRequest) (tid : String)
    (t0 tEnd : Nat) (store0 : Store) (h : firstError env = none) :
    ∃ tFin : TransactionState,
      (execute_saga env req tid t0 tEnd store0).result = .ok tFin ∧
      tFin.transaction_id = tid ∧
      tFin.status = TransactionStatus.COMPLETED ∧
      tFin.completed_at = some tEnd ∧
      tFin.inventory_updated = true ∧
      tFin.purchase_registered = true ∧
      tFin.error_message = none ∧
      (execute_saga env req tid t0 tEnd store0).compCalls = [] ∧
      (execute_saga env req tid t0 tEnd store0).compTrace = [] ∧
      (execute_saga env req tid t0 tEnd store0).saves.getLast? = some tFin ∧
      storeGet (execute_saga env req tid t0 tEnd store0).store tid = some tFin ∧
      (execute_saga env req tid t0 tEnd store0).saves.map (fun x => x.status) =
        List.replicate 5 TransactionStatus.PENDING ++
          [TransactionStatus.COMPLETED] ∧
      (execute_saga env req tid t0 tEnd store0).saves.map (fun x => x.completed_at) =
        List.replicate 5 (none : Option Nat) ++ [some tEnd] ∧
      (execute_saga env req tid t0 tEnd store0).forwardCalls = forwardCallList := by
  cases h1 : call_service "catalog" "/products/random" "GET" env.catalogWire with
  | error e1 => simp [firstError, h1] at h
  | ok b1 =>
  cases h2 : call_service "payments" "/payments" "POST" env.paymentsWire with
  | error e2 => simp [firstError, h1, h2] at h
  | ok b2 =>
  cases h3 : call_service "inventory" "/inventory/decrease" "POST" env.inventoryWire with
  | error e3 => simp [firstError, h1, h2, h3] at h
  | ok b3 =>
  cases h4 : call_service "purchases" "/purchases" "POST" env.purchasesWire with
  | error e4 => simp [firstError, h1, h2, h3, h4] at h
  | ok b4 =>
      refine ⟨{ create_transaction req tid t0 with
                status := TransactionStatus.COMPLETED,
                product_id := pyStrOpt b1 "product_id",
                payment_id := pyStrOpt b2 "payment_id",
                inventory_updated := true,
                purchase_registered := true,
                completed_at := some tEnd },
        ?_, ?_, ?_, ?_, ?_, ?_, ?_, ?_, ?_, ?_, ?_, ?_, ?_, ?_⟩ <;>
        simp [execute_saga, step_get_product, step_process_payment,
          step_update_inventory, step_register_purchase, h1, h2, h3, h4,
          create_transaction, forwardCallList, List.replicate]
      · exact storeGet_storeSave_self _ _

/-- The final store of one run is the initial store with every saved
snapshot upserted in order. -/
lemma saga_store_eq_foldl (env : SagaEnv) (req : TransactionRequest) (tid : String)
    (t0 tEnd : Nat) (store0 : Store) :
    (execute_saga env req tid t0 tEnd store0).store =
      (execute_saga env req tid t0 tEnd store0).saves.foldl storeSave store0 := by
  cases h1 : call_service "catalog" "/products/random" "GET" env.catalogWire with
  | error e1 =>
      simp [execute_saga, step_get_product, h1, sagaFail]
  | ok b1 =>
  cases h2 : call_service "payments" "/payments" "POST" env.paymentsWire with
  | error e2 =>
      simp [execute_saga, step_get_product, step_process_payment, h1, h2, sagaFail]
  | ok b2 =>
  cases h3 : call_service "inventory" "/inventory/decrease" "POST" env.inventoryWire with
  | error e3 =>
      simp [execute_saga, step_get_product, step_process_payment,
        step_update_inventory, h1, h2, h3, sagaFail]
  | ok b3 =>
  cases h4 : call_service "purchases" "/purchases" "POST" env.purchasesWire with
  | error e4 =>
      simp [execute_saga, step_get_product, step_process_payment,
        step_update_inventory, step_register_purchase, h1, h2, h3, h4, sagaFail]
  | ok b4 =>
      simp [execute_saga, step_get_product, step_process_payment,
        step_update_inventory, step_register_purchase, h1, h2, h3, h4]

/-- The first saved snapshot is always the freshly created PENDING record. -/
lemma saga_saves_head (env : SagaEnv) (req : TransactionRequest) (tid : String)
    (t0 tEnd : Nat) (store0 : Store) :
    (execute_saga env req tid t0 tEnd store0).saves.head? =
      some (create_transaction req tid t0) := by
  cases h1 : call_service "catalog" "/products/random" "GET" env.catalogWire with
  | error e1 =>
      simp [execute_saga, step_get_product, h1, sagaFail]
  | ok b1 =>
  cases h2 : call_service "payments" "/payments" "POST" env.paymentsWire with
  | error e2 =>
      simp [execute_saga, step_get_product, step_process_payment, h1, h2, sagaFail]
  | ok b2 =>
  cases h3 : call_service "inventory" "/inventory/decrease" "POST" env.inventoryWire with
  | error e3 =>
      simp [execute_saga, step_get_product, step_process_payment,
        step_update_inventory, h1, h2, h3, sagaFail]
  | ok b3 =>
  cases h4 : call_service "purchases" "/purchases" "POST" env.purchasesWire with
  | error e4 =>
      simp [execute_saga, step_get_product, step_process_payment,
        step_update_inventory, step_register_purchase, h1, h2, h3, h4, sagaFail]
  | ok b4 =>
      simp [execute_saga, step_get_product, step_process_payment,
        step_update_inventory, step_register_purchase, h1, h2, h3, h4]

/-- Every saved snapshot carries the id of this run. -/
lemma saga_saves_id (env : SagaEnv) (req : TransactionRequest) (tid : String)
    (t0 tEnd : Nat) (store0 : Store) (x : TransactionState)
    (hx : x ∈ (execute_saga env req tid t0 tEnd store0).saves) :
    x.transaction_id = tid := by
  cases h1 : call_service "catalog" "/products/random" "GET" env.catalogWire with
  | error e1 =>
      simp [execute_saga, step_get_product, h1, sagaFail] at hx
      rcases hx with rfl | rfl | rfl <;> rfl
  | ok b1 =>
  cases h2 : call_service "payments" "/payments" "POST" env.paymentsWire with
  | error e2 =>
      simp [execute_saga, step_get_product, step_process_payment, h1, h2,
        sagaFail] at hx
      rcases hx with rfl | rfl | rfl | rfl <;> rfl
  | ok b2 =>
  cases h3 : call_service "inventory" "/inventory/decrease" "POST" env.inventoryWire with
  | error e3 =>
      simp [execute_saga, step_get_product, step_process_payment,
        step_update_inventory, h1, h2, h3, sagaFail] at hx
      rcases hx with rfl | rfl | rfl | rfl | rfl <;> rfl
  | ok b3 =>
  cases h4 : call_service "purchases" "/purchases" "POST" env.purchasesWire with
  | error e4 =>
      simp [execute_saga, step_get_product, step_process_payment,
        step_update_inventory, step_register_purchase, h1, h2, h3, h4,
        sagaFail] at hx
      rcases hx with rfl | rfl | rfl | rfl | rfl | rfl <;> rfl
  | ok b4 =>
      simp [execute_saga, step_get_product, step_process_payment,
        step_update_inventory, step_register_purchase, h1, h2, h3, h4] at hx
      rcases hx with rfl | rfl | rfl | rfl | rfl | rfl <;> rfl

/-- No saved snapshot ever carries the FAILED status. -/
lemma saga_saves_status (env : SagaEnv) (req : TransactionRequest) (tid : String)
    (t0 tEnd : Nat) (store0 : Store) (x : TransactionState)
    (hx : x ∈ (execute_saga env req tid t0 tEnd store0).saves) :
    x.status ≠ TransactionStatus.FAILED := by
  cases h1 : call_service "catalog" "/products/random" "GET" env.catalogWire with
  | error e1 =>
      simp [execute_saga, step_get_product, h1, sagaFail] at hx
      rcases hx with rfl | rfl | rfl <;> simp [create_transaction]
  | ok b1 =>
  cases h2 : call_service "payments" "/payments" "POST" env.paymentsWire with
  | error e2 =>
      simp [execute_saga, step_get_product, step_process_payment, h1, h2,
        sagaFail] at hx
      rcases hx with rfl | rfl | rfl | rfl <;> simp [create_transaction]
  | ok b2 =>
  cases h3 : call_service "inventory" "/inventory/decrease" "POST" env.inventoryWire with
  | error e3 =>
      simp [execute_saga, step_get_product, step_process_payment,
        step_update_inventory, h1, h2, h3, sagaFail] at hx
      rcases hx with rfl | rfl | rfl | rfl | rfl <;> simp [create_transaction]
  | ok b3 =>
  cases h4 : call_service "purchases" "/purchases" "POST" env.purchasesWire with
  | error e4 =>
      simp [execute_saga, step_get_product, step_process_payment,
        step_update_inventory, step_register_purchase, h1, h2, h3, h4,
        sagaFail] at hx
      rcases hx with rfl | rfl | rfl | rfl | rfl | rfl <;> simp [create_transaction]
  | ok b4 =>
      simp [execute_saga, step_get_product, step_process_payment,
        step_update_inventory, step_register_purchase, h1, h2, h3, h4] at hx
      rcases hx with rfl | rfl | rfl | rfl | rfl | rfl <;> simp [create_transaction]

/-- On a store that does not yet hold the id of this run, the run appends exactly
one entry: its id mapped to the last saved snapshot. -/
lemma saga_store_fresh_view (env : SagaEnv) (req : TransactionRequest) (tid : String)
    (t0 tEnd : Nat) (store0 : Store) (hfresh : ∀ p ∈ store0, p.1 ≠ tid) :
    ∃ tl, (execute_saga env req tid t0 tEnd store0).store = store0 ++ [(tid, tl)] ∧
      (execute_saga env req tid t0 tEnd store0).saves.getLast? = some tl := by
  have hhead := saga_saves_head env req tid t0 tEnd store0
  cases hs : (execute_saga env req tid t0 tEnd store0).saves with
  | nil => rw [hs] at hhead; simp at hhead
  | cons a rest =>
      have ha : a = create_transaction req tid t0 := by
        rw [hs] at hhead; simpa using hhead
      subst ha
      have hid : ∀ u ∈ rest, u.transaction_id = tid := by
        intro u hu
        exact saga_saves_id env req tid t0 tEnd store0 u (by rw [hs]; simp [hu])
      have hid0 : (create_transaction req tid t0).transaction_id = tid := rfl
      refine ⟨rest.getLastD (create_transaction req tid t0), ?_, ?_⟩
      · rw [saga_store_eq_foldl, hs, List.foldl_cons,
          storeSave_fresh store0 (create_transaction req tid t0) tid hfresh hid0]
        exact foldl_storeSave_last rest store0 tid (create_transaction req tid t0)
          hfresh hid hid0
      · simp [getLast?_cons_getD]

/-! ## Gateway theorems -/

/-- C3: for every call on a configured service with a supported method, a
409 response maps to a distinct Conflict error preserving status 409 and
the remote error detail; a timeout maps to a 504 gateway-timeout error;
any other non-2xx response maps to an error carrying the original status
code and body text; a transport failure maps to a 503 Unavailable error;
and a 2xx response returns the decoded JSON body — so callers can branch
on Conflict versus the other error classes. -/
theorem gateway_outcome_classification (sn ep m : String) (code : Nat)
    (text : String) (ej : Option String) (b : Option Jn) (j : Jn) (msg : String)
    (hsn : sn ∈ knownServices) (hm : m ∈ httpMethods) :
    call_service sn ep m WireOutcome.timeout =
      Except.error (.httpException 504 ("Timeout while communicating with " ++ sn)) ∧
    call_service sn ep m (WireOutcome.connectError msg) =
      Except.error (.httpException 503 ("Service " ++ sn ++ " unavailable")) ∧
    (code = 409 →
      call_service sn ep m (WireOutcome.response code text ej b) =
        Except.error (.httpException 409 (sn ++ " conflict: " ++ ej.getD text))) ∧
    (code ≠ 409 → ¬ (200 ≤ code ∧ code < 300) →
      call_service sn ep m (WireOutcome.response code text ej b) =
        Except.error (.httpException code ("Error in " ++ sn ++ ": " ++ text))) ∧
    (200 ≤ code → code < 300 →
      call_service sn ep m (WireOutcome.response code text ej (some j)) =
        Except.ok j) := by
  refine ⟨?_, ?_, ?_, ?_, ?_⟩
  · simp only [call_service, if_neg (not_not_intro hsn), if_neg (not_not_intro hm)]
  · simp only [call_service, if_neg (not_not_intro hsn), if_neg (not_not_intro hm)]
  · intro h
    subst h
    simp [call_service, if_neg (not_not_intro hsn), if_neg (not_not_intro hm)]
  · intro hne hn2
    simp only [call_service, if_neg (not_not_intro hsn), if_neg (not_not_intro hm),
      if_neg hne, if_pos hn2]
  · intro h2 h3
    have hne : code ≠ 409 := by omega
    have hok : ¬ ¬ (200 ≤ code ∧ code < 300) := not_not_intro (And.intro h2 h3)
    simp only [call_service, if_neg (not_not_intro hsn), if_neg (not_not_intro hm),
      if_neg hne, if_neg hok]

/-- Witness for C3 at concrete inputs, exercising the 409 clause. -/
theorem gateway_outcome_classification_witness :
    call_service "catalog" "/p" "GET" WireOutcome.timeout =
      Except.error (.httpException 504 ("Timeout while communicating with " ++ "catalog")) ∧
    call_service "catalog" "/p" "GET" (WireOutcome.connectError "refused") =
      Except.error (.httpException 503 ("Service " ++ "catalog" ++ " unavailable")) ∧
    ((409 : Nat) = 409 →
      call_service "catalog" "/p" "GET" (WireOutcome.response 409 "t" (some "no stock") none) =
        Except.error (.httpException 409 ("catalog" ++ " conflict: " ++ (some "no stock").getD "t"))) ∧
    ((409 : Nat) ≠ 409 → ¬ (200 ≤ 409 ∧ 409 < 300) →
      call_service "catalog" "/p" "GET" (WireOutcome.response 409 "t" (some "no stock") none) =
        Except.error (.httpException 409 ("Error in " ++ "catalog" ++ ": " ++ "t"))) ∧
    (200 ≤ 409 → (409 : Nat) < 300 →
      call_service "catalog" "/p" "GET" (WireOutcome.response 409 "t" (some "no stock") (some [])) =
        Except.ok []) :=
  gateway_outcome_classification "catalog" "/p" "GET" 409 "t" (some "no stock")
    none [] "refused" (by decide) (by decide)

/-- C10: on a configured service, a call whose method is outside
GET/POST/PUT/DELETE has its internal ValueError swallowed by the generic
handler and resurfaces as a 503 HTTPException, a value identical to the one
produced by a connection failure; whereas a call with an unknown service
name raises a plain ValueError, bypassing the HTTP error classification. -/
theorem gateway_unsupported_method_and_unknown_service (sn bad ep m msg : String)
    (wire : WireOutcome) (hm : m ∉ httpMethods) (hsn : sn ∈ knownServices)
    (hbad : bad ∉ knownServices) :
    call_service sn ep m wire =
      Except.error (.httpException 503 ("Service " ++ sn ++ " unavailable")) ∧
    call_service sn ep m wire = call_service sn ep "GET" (WireOutcome.connectError msg) ∧
    call_service bad ep m wire =
      Except.error (.valueError ("Unknown service: " ++ bad)) := by
  have hget : "GET" ∈ httpMethods := by decide
  refine ⟨?_, ?_, ?_⟩
  · simp only [call_service, if_neg (not_not_intro hsn), if_pos hm]
  · simp only [call_service, if_neg (not_not_intro hsn), if_pos hm,
      if_neg (not_not_intro hget)]
  · simp only [call_service, if_pos hbad]

/-- Witness for the C10 theorem at a concrete input. -/
theorem gateway_unsupported_method_and_unknown_service_witness :
    call_service "catalog" "/p" "PATCH" WireOutcome.timeout =
      Except.error (.httpException 503 ("Service " ++ "catalog" ++ " unavailable")) ∧
    call_service "catalog" "/p" "PATCH" WireOutcome.timeout =
      call_service "catalog" "/p" "GET" (WireOutcome.connectError "refused") ∧
    call_service "shipping" "/p" "PATCH" WireOutcome.timeout =
      Except.error (.valueError ("Unknown service: " ++ "shipping")) :=
  gateway_unsupported_method_and_unknown_service "catalog" "shipping" "/p" "PATCH"
    "refused" WireOutcome.timeout (by decide) (by decide) (by decide)

/-! ## Orchestrator theorems -/

/-- C1: when some forward step fails with exception `e`, `execute_saga`
stops advancing at that step (the forward calls dispatched are exactly the
prefix of the step list up to and including the failing one), records
`str(e)` in `error_message`, invokes the compensation coordinator exactly
once with the record exactly as it stands at failure time, then sets
status COMPENSATED and `completed_at`, persists that terminal record, and
re-raises `e` to the caller. -/
theorem saga_step_failure_compensates (env : SagaEnv) (req : TransactionRequest)
    (tid : String) (t0 tEnd : Nat) (store0 : Store) (e : PyError)
    (hfail : firstError env = some e) :
    ∃ tf : TransactionState,
      (execute_saga env req tid t0 tEnd store0).result = .error e ∧
      (execute_saga env req tid t0 tEnd store0).compCalls = [tf] ∧
      tf.status = TransactionStatus.PENDING ∧
      tf.completed_at = none ∧
      tf.error_message = some (pyErrStr e) ∧
      (execute_saga env req tid t0 tEnd store0).compTrace =
        execute_all_compensations env.refundWire env.cancelWire tf ∧
      (execute_saga env req tid t0 tEnd store0).saves.getLast? =
        some { tf with status := TransactionStatus.COMPENSATED,
                       completed_at := some tEnd } ∧
      storeGet (execute_saga env req tid t0 tEnd store0).store tid =
        some { tf with status := TransactionStatus.COMPENSATED,
                       completed_at := some tEnd } ∧
      (execute_saga env req tid t0 tEnd store0).forwardCalls =
        forwardCallList.take (failStepIndex env + 1) := by
  obtain ⟨tf, hres, hcc, _, hst, hca, hem, htr, hlast, hget, _, _, hfc⟩ :=
    saga_fail_view env req tid t0 tEnd store0 e hfail
  exact ⟨tf, hres, hcc, hst, hca, hem, htr, hlast, hget, hfc⟩

/-- Witness for C1: the payment step answers 409 and the saga compensates
and re-raises. -/
theorem saga_step_failure_compensates_witness :
    ∃ tf : TransactionState,
      (execute_saga
        { catalogWire := .response 200 "ok" none (some [("product_id", .n 7)]),
          paymentsWire := .response 409 "no" (some "card declined") none,
          inventoryWire := .response 200 "ok" none (some []),
          purchasesWire := .response 200 "ok" none (some []),
          refundWire := .response 200 "ok" none (some []),
          cancelWire := .response 200 "ok" none (some []) }
        { user_id := "u1", amount := 5 } "t1" 0 9 []).result =
        .error (.httpException 409 ("payments conflict: " ++ "card declined")) ∧
      (execute_saga
        { catalogWire := .response 200 "ok" none (some [("product_id", .n 7)]),
          paymentsWire := .response 409 "no" (some "card declined") none,
          inventoryWire := .response 200 "ok" none (some []),
          purchasesWire := .response 200 "ok" none (some []),
          refundWire := .response 200 "ok" none (some []),
          cancelWire := .response 200 "ok" none (some []) }
        { user_id := "u1", amount := 5 } "t1" 0 9 []).compCalls = [tf] ∧
      tf.status = TransactionStatus.PENDING ∧
      tf.completed_at = none ∧
      tf.error_message =
        some (pyErrStr (.httpException 409 ("payments conflict: " ++ "card declined"))) ∧
      (execute_saga
        { catalogWire := .response 200 "ok" none (some [("product_id", .n 7)]),
          paymentsWire := .response 409 "no" (some "card declined") none,
          inventoryWire := .response 200 "ok" none (some []),
          purchasesWire := .response 200 "ok" none (some []),
          refundWire := .response 200 "ok" none (some []),
          cancelWire := .response 200 "ok" none (some []) }
        { user_id := "u1", amount := 5 } "t1" 0 9 []).compTrace =
        execute_all_compensations (.response 200 "ok" none (some []))
          (.response 200 "ok" none (some [])) tf ∧
      (execute_saga
        { catalogWire := .response 200 "ok" none (some [("product_id", .n 7)]),
          paymentsWire := .response 409 "no" (some "card declined") none,
          inventoryWire := .response 200 "ok" none (some []),
          purchasesWire := .response 200 "ok" none (some []),
          refundWire := .response 200 "ok" none (some []),
          cancelWire := .response 200 "ok" none (some []) }
        { user_id := "u1", amount := 5 } "t1" 0 9 []).saves.getLast? =
        some { tf with status := TransactionStatus.COMPENSATED,
                       completed_at := some 9 } ∧
      storeGet (execute_saga
        { catalogWire := .response 200 "ok" none (some [("product_id", .n 7)]),
          paymentsWire := .response 409 "no" (some "card declined") none,
          inventoryWire := .response 200 "ok" none (some []),
          purchasesWire := .response 200 "ok" none (some []),
          refundWire := .response 200 "ok" none (some []),
          cancelWire := .response 200 "ok" none (some []) }
        { user_id := "u1", amount := 5 } "t1" 0 9 []).store "t1" =
        some { tf with status := TransactionStatus.COMPENSATED,
                       completed_at := some 9 } ∧
      (execute_saga
        { catalogWire := .response 200 "ok" none (some [("product_id", .n 7)]),
          paymentsWire := .response 409 "no" (some "card declined") none,
          inventoryWire := .response 200 "ok" none (some []),
          purchasesWire := .response 200 "ok" none (some []),
          refundWire := .response 200 "ok" none (some []),
          cancelWire := .response 200 "ok" none (some []) }
        { user_id := "u1", amount := 5 } "t1" 0 9 []).forwardCalls =
        forwardCallList.take (failStepIndex
          { catalogWire := .response 200 "ok" none (some [("product_id", .n 7)]),
            paymentsWire := .response 409 "no" (some "card declined") none,
            inventoryWire := .response 200 "ok" none (some []),
            purchasesWire := .response 200 "ok" none (some []),
            refundWire := .response 200 "ok" none (some []),
            cancelWire := .response 200 "ok" none (some []) } + 1) :=
  saga_step_failure_compensates
    { catalogWire := .response 200 "ok" none (some [("product_id", .n 7)]),
      paymentsWire := .response 409 "no" (some "card declined") none,
      inventoryWire := .response 200 "ok" none (some []),
      purchasesWire := .response 200 "ok" none (some []),
      refundWire := .response 200 "ok" none (some []),
      cancelWire := .response 200 "ok" none (some []) }
    { user_id := "u1", amount := 5 } "t1" 0 9 []
    (.httpException 409 ("payments conflict: " ++ "card declined")) (by decide)

/-- C2: for a failed transaction record (whose payment id, when present, is
non-empty, as the payment step guarantees), the coordinator executes, in
order, exactly a purchase-ledger cancel when and only when
`purchase_registered` holds, followed by a payment refund when and only
when `payment_id` is set — so ledger-cancel always precedes payment-refund
when both apply, and no inventory or catalog compensation exists. -/
theorem compensation_build_and_order (refundWire cancelWire : WireOutcome)
    (t : TransactionState) (hpid : t.payment_id ≠ some "") :
    (execute_all_compensations refundWire cancelWire t).map (fun c => c.name) =
      (if t.purchase_registered then ["purchase"] else []) ++
      (if t.payment_id.isSome then ["payment"] else []) := by
  cases hp : t.payment_id with
  | none =>
      cases hr : t.purchase_registered <;>
        simp [execute_all_compensations, optTruthy, hp, hr]
  | some s =>
      have hs : s ≠ "" := by
        intro hcon
        exact hpid (by rw [hp, hcon])
      cases hr : t.purchase_registered <;>
        simp [execute_all_compensations, optTruthy, hp, hr, hs]

/-- Witness for C2 at a record with both success flags set. -/
theorem compensation_build_and_order_witness :
    (execute_all_compensations WireOutcome.timeout WireOutcome.timeout
      { transaction_id := "t1", status := TransactionStatus.PENDING,
        user_id := "u1", payment_id := some "p1", purchase_registered := true,
        amount := 5, created_at := 0 }).map (fun c => c.name) =
      (if ({ transaction_id := "t1", status := TransactionStatus.PENDING,
             user_id := "u1", payment_id := some "p1", purchase_registered := true,
             amount := 5, created_at := 0 } : TransactionState).purchase_registered
       then ["purchase"] else []) ++
      (if ({ transaction_id := "t1", status := TransactionStatus.PENDING,
             user_id := "u1", payment_id := some "p1", purchase_registered := true,
             amount := 5, created_at := 0 } : TransactionState).payment_id.isSome
       then ["payment"] else []) :=
  compensation_build_and_order WireOutcome.timeout WireOutcome.timeout
    { transaction_id := "t1", status := TransactionStatus.PENDING,
      user_id := "u1", payment_id := some "p1", purchase_registered := true,
      amount := 5, created_at := 0 } (by decide)

/-- C4: when the four forward calls all succeed and their bodies carry the
ids the participant contract promises, `execute_saga` runs the steps in
the fixed order catalog, payments, inventory, purchases, persists the
record after every successful step (six saves in total), invokes no
compensation, and returns a COMPLETED record with `completed_at` set and
all four derived fields populated. -/
theorem saga_all_steps_succeed (env : SagaEnv) (req : TransactionRequest)
    (tid : String) (t0 tEnd : Nat) (store0 : Store) (bc bp bi bu : Jn)
    (pid payid : String)
    (h1 : call_service "catalog" "/products/random" "GET" env.catalogWire = .ok bc)
    (hpid : pyStrOpt bc "product_id" = some pid)
    (h2 : call_service "payments" "/payments" "POST" env.paymentsWire = .ok bp)
    (hpay : pyStrOpt bp "payment_id" = some payid)
    (h3 : call_service "inventory" "/inventory/decrease" "POST" env.inventoryWire = .ok bi)
    (h4 : call_service "purchases" "/purchases" "POST" env.purchasesWire = .ok bu) :
    (execute_saga env req tid t0 tEnd store0).result =
      .ok { transaction_id := tid, status := TransactionStatus.COMPLETED,
            user_id := req.user_id, product_id := some pid,
            payment_id := some payid, inventory_updated := true,
            purchase_registered := true, amount := req.amount,
            created_at := t0, completed_at := some tEnd } ∧
    (execute_saga env req tid t0 tEnd store0).saves =
      [{ transaction_id := tid, status := TransactionStatus.PENDING,
         user_id := req.user_id, amount := req.amount, created_at := t0 },
       { transaction_id := tid, status := TransactionStatus.PENDING,
         user_id := req.user_id, product_id := some pid,
         amount := req.amount, created_at := t0 },
       { transaction_id := tid, status := TransactionStatus.PENDING,
         user_id := req.user_id, product_id := some pid,
         payment_id := some payid, amount := req.amount, created_at := t0 },
       { transaction_id := tid, status := TransactionStatus.PENDING,
         user_id := req.user_id, product_id := some pid,
         payment_id := some payid, inventory_updated := true,
         amount := req.amount, created_at := t0 },
       { transaction_id := tid, status := TransactionStatus.PENDING,
         user_id := req.user_id, product_id := some pid,
         payment_id := some payid, inventory_updated := true,
         purchase_registered := true, amount := req.amount, created_at := t0 },
       { transaction_id := tid, status := TransactionStatus.COMPLETED,
         user_id := req.user_id, product_id := some pid,
         payment_id := some payid, inventory_updated := true,
         purchase_registered := true, amount := req.amount,
         created_at := t0, completed_at := some tEnd }] ∧
    (execute_saga env req tid t0 tEnd store0).forwardCalls = forwardCallList ∧
    (execute_saga env req tid t0 tEnd store0).compCalls = [] ∧
    storeGet (execute_saga env req tid t0 tEnd store0).store tid =
      some { transaction_id := tid, status := TransactionStatus.COMPLETED,
             user_id := req.user_id, product_id := some pid,
             payment_id := some payid, inventory_updated := true,
             purchase_registered := true, amount := req.amount,
             created_at := t0, completed_at := some tEnd } := by
  refine ⟨?_, ?_, ?_, ?_, ?_⟩ <;>
    simp [execute_saga, step_get_product, step_process_payment,
      step_update_inventory, step_register_purchase, h1, h2, h3, h4,
      hpid, hpay, create_transaction]
  · exact storeGet_storeSave_self _ _

/-- Witness for C4: an all-success run at concrete inputs. -/
theorem saga_all_steps_succeed_witness :
    (execute_saga
      { catalogWire := .response 200 "ok" none (some [("product_id", .n 7)]),
        paymentsWire := .response 200 "ok" none (some [("payment_id", .s "p1")]),
        inventoryWire := .response 200 "ok" none (some []),
        purchasesWire := .response 201 "ok" none (some []),
        refundWire := .response 200 "ok" none (some []),
        cancelWire := .response 200 "ok" none (some []) }
      { user_id := "u1", amount := 5 } "t1" 0 9 []).result =
      .ok { transaction_id := "t1", status := TransactionStatus.COMPLETED,
            user_id := ({ user_id := "u1", amount := 5 } : TransactionRequest).user_id,
            product_id := some "7", payment_id := some "p1",
            inventory_updated := true, purchase_registered := true,
            amount := ({ user_id := "u1", amount := 5 } : TransactionRequest).amount,
            created_at := 0, completed_at := some 9 } :=
  (saga_all_steps_succeed
    { catalogWire := .response 200 "ok" none (some [("product_id", .n 7)]),
      paymentsWire := .response 200 "ok" none (some [("payment_id", .s "p1")]),
      inventoryWire := .response 200 "ok" none (some []),
      purchasesWire := .response 201 "ok" none (some []),
      refundWire := .response 200 "ok" none (some []),
      cancelWire := .response 200 "ok" none (some []) }
    { user_id := "u1", amount := 5 } "t1" 0 9 []
    [("product_id", .n 7)] [("payment_id", .s "p1")] [] []
    "7" "p1" (by decide) (by decide) (by decide) (by decide) (by decide)
    (by decide)).1

/-- C5: per transaction, the persisted status history is monotonic — a
non-empty block of PENDING snapshots (starting with the created record)
followed by exactly one terminal status, which is COMPLETED, COMPENSATED
or FAILED; nothing follows the terminal snapshot, and `completed_at` is
assigned exactly once, at the terminal transition. -/
theorem saga_status_monotonic (env : SagaEnv) (req : TransactionRequest)
    (tid : String) (t0 tEnd : Nat) (store0 : Store) :
    ∃ n : Nat, ∃ term : TransactionStatus,
      1 ≤ n ∧
      term ≠ TransactionStatus.PENDING ∧
      (term = TransactionStatus.COMPLETED ∨ term = TransactionStatus.COMPENSATED ∨
        term = TransactionStatus.FAILED) ∧
      (execute_saga env req tid t0 tEnd store0).saves.map (fun x => x.status) =
        List.replicate n TransactionStatus.PENDING ++ [term] ∧
      (execute_saga env req tid t0 tEnd store0).saves.map (fun x => x.completed_at) =
        List.replicate n (none : Option Nat) ++ [some tEnd] := by
  cases hfe : firstError env with
  | none =>
      obtain ⟨tFin, _, _, _, _, _, _, _, _, _, _, _, hms, hmc, _⟩ :=
        saga_ok_view env req tid t0 tEnd store0 hfe
      exact ⟨5, TransactionStatus.COMPLETED, by omega, by simp, Or.inl rfl, hms, hmc⟩
  | some e =>
      obtain ⟨tf, _, _, _, _, _, _, _, _, _, hms, hmc, _⟩ :=
        saga_fail_view env req tid t0 tEnd store0 e hfe
      exact ⟨failStepIndex env + 2, TransactionStatus.COMPENSATED, by omega,
        by simp, Or.inr (Or.inl rfl), hms, hmc⟩

/-- C6: whatever the individual compensation calls do (success, returned
failure, or raised exception — any wire behaviour), the coordinator never
raises: its trace always covers every applicable compensation by name, and
a failed saga still reaches the COMPENSATED terminal state in the store. -/
theorem compensation_never_blocks (refundWire cancelWire : WireOutcome)
    (t : TransactionState) (env : SagaEnv) (req : TransactionRequest)
    (tid : String) (t0 tEnd : Nat) (store0 : Store) (e : PyError) :
    (execute_all_compensations refundWire cancelWire t).map (fun c => c.name) =
      (if t.purchase_registered then ["purchase"] else []) ++
      (if optTruthy t.payment_id then ["payment"] else []) ∧
    (firstError env = some e →
      ∃ tc : TransactionState,
        storeGet (execute_saga env req tid t0 tEnd store0).store tid = some tc ∧
        tc.status = TransactionStatus.COMPENSATED ∧
        tc.completed_at = some tEnd) := by
  constructor
  · cases hr : t.purchase_registered <;> cases hy : optTruthy t.payment_id <;>
      simp [execute_all_compensations, hr, hy]
  · intro hfe
    obtain ⟨tf, _, _, _, _, _, _, _, _, hget, _, _, _⟩ :=
      saga_fail_view env req tid t0 tEnd store0 e hfe
    exact ⟨_, hget, rfl, rfl⟩

/-- Witness for C6: the refund call raises, the cancel call times out, yet
the trace covers both compensations and the saga ends COMPENSATED. -/
theorem compensation_never_blocks_witness :
    (execute_all_compensations (WireOutcome.connectError "down") WireOutcome.timeout
      { transaction_id := "t6", status := TransactionStatus.PENDING,
        user_id := "u6", payment_id := some "p6", purchase_registered := true,
        amount := 3, created_at := 0 }).map (fun c => c.name) =
      (if ({ transaction_id := "t6", status := TransactionStatus.PENDING,
             user_id := "u6", payment_id := some "p6", purchase_registered := true,
             amount := 3, created_at := 0 } : TransactionState).purchase_registered
       then ["purchase"] else []) ++
      (if optTruthy ({ transaction_id := "t6", status := TransactionStatus.PENDING,
                       user_id := "u6", payment_id := some "p6",
                       purchase_registered := true,
                       amount := 3, created_at := 0 } : TransactionState).payment_id
       then ["payment"] else []) ∧
    (firstError
        { catalogWire := .timeout,
          paymentsWire := .response 200 "ok" none (some []),
          inventoryWire := .response 200 "ok" none (some []),
          purchasesWire := .response 200 "ok" none (some []),
          refundWire := .connectError "down",
          cancelWire := .timeout } =
        some (.httpException 504 ("Timeout while communicating with " ++ "catalog")) →
      ∃ tc : TransactionState,
        storeGet (execute_saga
          { catalogWire := .timeout,
            paymentsWire := .response 200 "ok" none (some []),
            inventoryWire := .response 200 "ok" none (some []),
            purchasesWire := .response 200 "ok" none (some []),
            refundWire := .connectError "down",
            cancelWire := .timeout }
          { user_id := "u6", amount := 3 } "t6" 0 9 []).store "t6" = some tc ∧
        tc.status = TransactionStatus.COMPENSATED ∧
        tc.completed_at = some 9) :=
  compensation_never_blocks (WireOutcome.connectError "down") WireOutcome.timeout
    { transaction_id := "t6", status := TransactionStatus.PENDING,
      user_id := "u6", payment_id := some "p6", purchase_registered := true,
      amount := 3, created_at := 0 }
    { catalogWire := .timeout,
      paymentsWire := .response 200 "ok" none (some []),
      inventoryWire := .response 200 "ok" none (some []),
      purchasesWire := .response 200 "ok" none (some []),
      refundWire := .connectError "down",
      cancelWire := .timeout }
    { user_id := "u6", amount := 3 } "t6" 0 9 []
    (.httpException 504 ("Timeout while communicating with " ++ "catalog"))

/-! ## Route and reachability theorems -/

/-- C7: POST /saga/transaction answers 200 with the transaction id and
status COMPLETED when the saga succeeds, and 409 with the failed
transaction id, status COMPENSATED and an error field holding the
proximate cause when any step fails (for a fresh transaction id, as uuid4
guarantees). -/
theorem route_response_contract (env : SagaEnv) (req : TransactionRequest)
    (tid : String) (t0 tEnd now : Nat) (store0 : Store) (e : PyError)
    (hfresh : ∀ p ∈ store0, p.1 ≠ tid) :
    (firstError env = none →
      (initiate_transaction env req tid t0 tEnd now store0).1 = 200 ∧
      (initiate_transaction env req tid t0 tEnd now store0).2.1.transaction_id = tid ∧
      (initiate_transaction env req tid t0 tEnd now store0).2.1.status =
        TransactionStatus.COMPLETED) ∧
    (firstError env = some e →
      (initiate_transaction env req tid t0 tEnd now store0).1 = 409 ∧
      (initiate_transaction env req tid t0 tEnd now store0).2.1.transaction_id = tid ∧
      (initiate_transaction env req tid t0 tEnd now store0).2.1.status =
        TransactionStatus.COMPENSATED ∧
      (initiate_transaction env req tid t0 tEnd now store0).2.1.details_error =
        some (some (pyErrStr e))) := by
  constructor
  · intro hfe
    obtain ⟨tFin, hres, htid, hst, _, _, _, _, _, _, _, _, _, _⟩ :=
      saga_ok_view env req tid t0 tEnd store0 hfe
    refine ⟨?_, ?_, ?_⟩ <;> simp [initiate_transaction, hres, htid, hst]
  · intro hfe
    obtain ⟨tf, hres, _, htid, _, _, hem, _, hlast, _, _, _, _⟩ :=
      saga_fail_view env req tid t0 tEnd store0 e hfe
    obtain ⟨tl, hstore, hlast2⟩ :=
      saga_store_fresh_view env req tid t0 tEnd store0 hfresh
    have htl : tl = { tf with status := TransactionStatus.COMPENSATED,
                              completed_at := some tEnd } := by
      rw [hlast2] at hlast
      exact Option.some.inj hlast
    refine ⟨?_, ?_, ?_, ?_⟩ <;>
      simp [initiate_transaction, hres, hstore, storeAll, htl, htid, hem]

/-- Witness for C7 at a concrete failing run on the empty store. -/
theorem route_response_contract_witness :
    (firstError
        { catalogWire := .timeout,
          paymentsWire := .response 200 "ok" none (some []),
          inventoryWire := .response 200 "ok" none (some []),
          purchasesWire := .response 200 "ok" none (some []),
          refundWire := .response 200 "ok" none (some []),
          cancelWire := .response 200 "ok" none (some []) } = none →
      (initiate_transaction
        { catalogWire := .timeout,
          paymentsWire := .response 200 "ok" none (some []),
          inventoryWire := .response 200 "ok" none (some []),
          purchasesWire := .response 200 "ok" none (some []),
          refundWire := .response 200 "ok" none (some []),
          cancelWire := .response 200 "ok" none (some []) }
        { user_id := "u9", amount := 1 } "w9" 0 1 2 []).1 = 200 ∧
      (initiate_transaction
        { catalogWire := .timeout,
          paymentsWire := .response 200 "ok" none (some []),
          inventoryWire := .response 200 "ok" none (some []),
          purchasesWire := .response 200 "ok" none (some []),
          refundWire := .response 200 "ok" none (some []),
          cancelWire := .response 200 "ok" none (some []) }
        { user_id := "u9", amount := 1 } "w9" 0 1 2 []).2.1.transaction_id = "w9" ∧
      (initiate_transaction
        { catalogWire := .timeout,
          paymentsWire := .response 200 "ok" none (some []),
          inventoryWire := .response 200 "ok" none (some []),
          purchasesWire := .response 200 "ok" none (some []),
          refundWire := .response 200 "ok" none (some []),
          cancelWire := .response 200 "ok" none (some []) }
        { user_id := "u9", amount := 1 } "w9" 0 1 2 []).2.1.status =
        TransactionStatus.COMPLETED) ∧
    (firstError
        { catalogWire := .timeout,
          paymentsWire := .response 200 "ok" none (some []),
          inventoryWire := .response 200 "ok" none (some []),
          purchasesWire := .response 200 "ok" none (some []),
          refundWire := .response 200 "ok" none (some []),
          cancelWire := .response 200 "ok" none (some []) } =
        some (.httpException 504 ("Timeout while communicating with " ++ "catalog")) →
      (initiate_transaction
        { catalogWire := .timeout,
          paymentsWire := .response 200 "ok" none (some []),
          inventoryWire := .response 200 "ok" none (some []),
          purchasesWire := .response 200 "ok" none (some []),
          refundWire := .response 200 "ok" none (some []),
          cancelWire := .response 200 "ok" none (some []) }
        { user_id := "u9", amount := 1 } "w9" 0 1 2 []).1 = 409 ∧
      (initiate_transaction
        { catalogWire := .timeout,
          paymentsWire := .response 200 "ok" none (some []),
          inventoryWire := .response 200 "ok" none (some []),
          purchasesWire := .response 200 "ok" none (some []),
          refundWire := .response 200 "ok" none (some []),
          cancelWire := .response 200 "ok" none (some []) }
        { user_id := "u9", amount := 1 } "w9" 0 1 2 []).2.1.transaction_id = "w9" ∧
      (initiate_transaction
        { catalogWire := .timeout,
          paymentsWire := .response 200 "ok" none (some []),
          inventoryWire := .response 200 "ok" none (some []),
          purchasesWire := .response 200 "ok" none (some []),
          refundWire := .response 200 "ok" none (some []),
          cancelWire := .response 200 "ok" none (some []) }
        { user_id := "u9", amount := 1 } "w9" 0 1 2 []).2.1.status =
        TransactionStatus.COMPENSATED ∧
      (initiate_transaction
        { catalogWire := .timeout,
          paymentsWire := .response 200 "ok" none (some []),
          inventoryWire := .response 200 "ok" none (some []),
          purchasesWire := .response 200 "ok" none (some []),
          refundWire := .response 200 "ok" none (some []),
          cancelWire := .response 200 "ok" none (some []) }
        { user_id := "u9", amount := 1 } "w9" 0 1 2 []).2.1.details_error =
        some (some (pyErrStr
          (.httpException 504 ("Timeout while communicating with " ++ "catalog"))))) :=
  route_response_contract
    { catalogWire := .timeout,
      paymentsWire := .response 200 "ok" none (some []),
      inventoryWire := .response 200 "ok" none (some []),
      purchasesWire := .response 200 "ok" none (some []),
      refundWire := .response 200 "ok" none (some []),
      cancelWire := .response 200 "ok" none (some []) }
    { user_id := "u9", amount := 1 } "w9" 0 1 2 []
    (.httpException 504 ("Timeout while communicating with " ++ "catalog"))
    (by simp)

/-- C8: a request whose amount is not strictly positive is rejected with
422 before any side effect: the store is returned unchanged, no record is
created, and the outcome does not depend on the remote environment at all
(no remote call is made). -/
theorem endpoint_rejects_nonpositive_amount (env env2 : SagaEnv) (uid : String)
    (amount : Rat) (tid : String) (t0 tEnd now : Nat) (store0 : Store)
    (hamt : ¬ 0 < amount) :
    saga_endpoint env uid amount tid t0 tEnd now store0 =
      (EndpointResult.validationError 422, store0) ∧
    saga_endpoint env uid amount tid t0 tEnd now store0 =
      saga_endpoint env2 uid amount tid t0 tEnd now store0 := by
  constructor <;> simp [saga_endpoint, validateTransactionRequest, hamt]

/-- Witness for C8 at amount = -5 on the empty store, under two different
remote environments. -/
theorem endpoint_rejects_nonpositive_amount_witness :
    saga_endpoint
      { catalogWire := .timeout, paymentsWire := .timeout,
        inventoryWire := .timeout, purchasesWire := .timeout,
        refundWire := .timeout, cancelWire := .timeout }
      "u8" (-5) "t8" 0 1 2 [] = (EndpointResult.validationError 422, []) ∧
    saga_endpoint
      { catalogWire := .timeout, paymentsWire := .timeout,
        inventoryWire := .timeout, purchasesWire := .timeout,
        refundWire := .timeout, cancelWire := .timeout }
      "u8" (-5) "t8" 0 1 2 [] =
    saga_endpoint
      { catalogWire := .response 200 "ok" none (some []),
        paymentsWire := .response 200 "ok" none (some []),
        inventoryWire := .response 200 "ok" none (some []),
        purchasesWire := .response 200 "ok" none (some []),
        refundWire := .response 200 "ok" none (some []),
        cancelWire := .response 200 "ok" none (some []) }
      "u8" (-5) "t8" 0 1 2 [] :=
  endpoint_rejects_nonpositive_amount
    { catalogWire := .timeout, paymentsWire := .timeout,
      inventoryWire := .timeout, purchasesWire := .timeout,
      refundWire := .timeout, cancelWire := .timeout }
    { catalogWire := .response 200 "ok" none (some []),
      paymentsWire := .response 200 "ok" none (some []),
      inventoryWire := .response 200 "ok" none (some []),
      purchasesWire := .response 200 "ok" none (some []),
      refundWire := .response 200 "ok" none (some []),
      cancelWire := .response 200 "ok" none (some []) }
    "u8" (-5) "t8" 0 1 2 [] (by norm_num)

/-- Store states reachable by running sagas from the initial empty store:
the only writer of the store in the orchestrator is `execute_saga`. -/
inductive ReachableStore : Store → Prop where
  | init : ReachableStore []
  | saga (env : SagaEnv) (req : TransactionRequest) (tid : String)
      (t0 tEnd : Nat) (s : Store) :
      ReachableStore s → ReachableStore (execute_saga env req tid t0 tEnd s).store

lemma reachable_no_failed (s : Store) (hs : ReachableStore s) :
    ∀ q ∈ s, q.2.status ≠ TransactionStatus.FAILED := by
  induction hs with
  | init => intro q hq; simp at hq
  | saga env req tid t0 tEnd s hsr ih =>
      intro q hq
      rw [saga_store_eq_foldl] at hq
      rcases mem_foldl_storeSave _ _ _ hq with h1 | h1
      · exact ih q h1
      · exact saga_saves_status env req tid t0 tEnd s q.2 h1

/-- C9: FAILED is declared but unreachable — on every store state reachable
by running sagas, every stored transaction record has a status other than
FAILED. -/
theorem failed_status_unreachable (s : Store) (hs : ReachableStore s)
    (tid : String) (t : TransactionState) (hget : storeGet s tid = some t) :
    t.status ≠ TransactionStatus.FAILED := by
  have hmem : ∃ p ∈ s, p.2 = t := by
    unfold storeGet at hget
    cases hfind : List.find? (fun p => p.1 = tid) s with
    | none => rw [hfind] at hget; simp at hget
    | some p =>
        rw [hfind] at hget
        exact ⟨p, List.mem_of_find?_eq_some hfind, by simpa using hget⟩
  obtain ⟨p, hp, rfl⟩ := hmem
  exact reachable_no_failed s hs p hp

/-- Witness for C9: a record stored by a concrete failed run, reached from
the empty store, has a non-FAILED status. -/
theorem failed_status_unreachable_witness :
    ({ transaction_id := "w9", status := TransactionStatus.COMPENSATED,
       user_id := "u9", amount := 1, created_at := 0, completed_at := some 1,
       error_message := some "504: Timeout while communicating with catalog" } :
      TransactionState).status ≠ TransactionStatus.FAILED :=
  failed_status_unreachable _
    (ReachableStore.saga
      { catalogWire := .timeout,
        paymentsWire := .response 200 "ok" none (some []),
        inventoryWire := .response 200 "ok" none (some []),
        purchasesWire := .response 200 "ok" none (some []),
        refundWire := .response 200 "ok" none (some []),
        cancelWire := .response 200 "ok" none (some []) }
      { user_id := "u9", amount := 1 } "w9" 0 1 [] ReachableStore.init)
    "w9" _ (by decide)

end ECommerceSaga
